import Mathlib

set_option autoImplicit false
set_option maxRecDepth 8192

/-!
Verification of the RisingKnights Orchestrator against its natural-language
specification.

The development is a shallow embedding of the Python sources
src/Orchestrator/src/orchestrator/{session_store.py, agent.py, main.py}:

* Python dicts keyed by strings are modelled as association lists
  (lookupA / insertA / eraseA), which preserve insertion order exactly as
  CPython dicts do.
* datetime.now().isoformat() is effectful; every function of the model that
  calls it takes the produced timestamp as an explicit argument.
* File-system state is a map from path strings to file contents; a file on
  disk either parses into the session dictionary (FileContent.parseable) or
  fails json.load / SessionData.from_dict (FileContent.corrupt).
* Exceptions swallowed by the source (save_session's try/except) are modelled
  by a writeOk flag selecting whether the underlying write takes effect.
-/

/-- Association-list lookup: first binding of the key, as in a Python dict. -/
def lookupA {α : Type} (k : String) : List (String × α) → Option α
  | [] => none
  | (k', v) :: rest => if k' = k then some v else lookupA k rest

/-- Association-list update: replace the binding in place, or append a new one;
this mirrors assignment into a Python dict (insertion order preserved). -/
def insertA {α : Type} (k : String) (v : α) : List (String × α) → List (String × α)
  | [] => [(k, v)]
  | (k', v') :: rest => if k' = k then (k, v) :: rest else (k', v') :: insertA k v rest

/-- Association-list removal, mirroring Python del / file unlink. -/
def eraseA {α : Type} (k : String) : List (String × α) → List (String × α)
  | [] => []
  | (k', v') :: rest => if k' = k then rest else (k', v') :: eraseA k rest

@[simp] theorem lookupA_insertA_self {α : Type} (k : String) (v : α) (l : List (String × α)) :
    lookupA k (insertA k v l) = some v := by
  induction l with
  | nil => simp [lookupA, insertA]
  | cons hd tl ih =>
    obtain ⟨k', v'⟩ := hd
    by_cases h : k' = k
    · simp [lookupA, insertA, h]
    · simp [lookupA, insertA, h, ih]

theorem lookupA_insertA_ne {α : Type} (k k' : String) (v : α) (l : List (String × α))
    (h : k' ≠ k) : lookupA k (insertA k' v l) = lookupA k l := by
  induction l with
  | nil => simp [lookupA, insertA, h]
  | cons hd tl ih =>
    obtain ⟨k₀, v₀⟩ := hd
    by_cases h0 : k₀ = k'
    · subst h0
      simp [lookupA, insertA, h]
    · simp only [insertA, if_neg h0]
      by_cases h1 : k₀ = k
      · simp [lookupA, h1]
      · simp [lookupA, h1, ih]

/- ===================================================================
   Session data model — session_store.py
   =================================================================== -/

/-- ConversationMessage dataclass (session_store.py): role, content and the
timestamp produced by datetime.now().isoformat() at append time. -/
structure ConversationMessage where
  role : String
  content : String
  timestamp : String
deriving DecidableEq

/-- SessionData dataclass (session_store.py).  The free-form metadata dict is
modelled as a string-keyed association list. -/
structure SessionData where
  session_id : String
  user_id : String
  app_name : String := "orchestrator"
  title : String := ""
  created_at : String
  updated_at : String
  messages : List ConversationMessage := []
  metadata : List (String × String) := []
deriving DecidableEq

/-- On-disk dictionary form of one message.  The timestamp key is optional
because SessionData.from_dict reads it with m.get("timestamp", ""). -/
structure MessageDict where
  role : String
  content : String
  timestamp : Option String
deriving DecidableEq

/-- On-disk dictionary form of a session (the JSON object written by
save_session).  Keys that SessionData.from_dict reads with .get and a default
are optional; session_id and user_id are accessed with [] and are required. -/
structure SessionDict where
  session_id : String
  user_id : String
  app_name : Option String
  title : Option String
  created_at : Option String
  updated_at : Option String
  messages : Option (List MessageDict)
  metadata : Option (List (String × String))
deriving DecidableEq

/-- SessionData.to_dict: every key is emitted. -/
def SessionData.toDict (s : SessionData) : SessionDict :=
  { session_id := s.session_id
    user_id := s.user_id
    app_name := some s.app_name
    title := some s.title
    created_at := some s.created_at
    updated_at := some s.updated_at
    messages := some (s.messages.map fun m => ⟨m.role, m.content, some m.timestamp⟩)
    metadata := some s.metadata }

/-- SessionData.from_dict: required keys are read directly, the rest through
.get with the defaults of the source. -/
def SessionData.fromDict (d : SessionDict) : SessionData :=
  { session_id := d.session_id
    user_id := d.user_id
    app_name := d.app_name.getD "orchestrator"
    title := d.title.getD ""
    created_at := d.created_at.getD ""
    updated_at := d.updated_at.getD ""
    messages := (d.messages.getD []).map fun m => ⟨m.role, m.content, m.timestamp.getD ""⟩
    metadata := d.metadata.getD [] }

/-- SessionData.add_message: append the message, refresh updated_at, and
auto-derive the title from the first user message.  The now argument stands
for the two datetime.now() calls made during the append. -/
def SessionData.addMessage (s : SessionData) (role content now : String) : SessionData :=
  let s1 := { s with messages := s.messages ++ [⟨role, content, now⟩], updated_at := now }
  if s1.title = "" ∧ role = "user" then
    { s1 with title := content.take 50 ++ (if 50 < content.length then "..." else "") }
  else s1

@[simp] theorem addMessage_session_id (s : SessionData) (role content now : String) :
    (s.addMessage role content now).session_id = s.session_id := by
  simp only [SessionData.addMessage]
  split <;> rfl

@[simp] theorem addMessage_user_id (s : SessionData) (role content now : String) :
    (s.addMessage role content now).user_id = s.user_id := by
  simp only [SessionData.addMessage]
  split <;> rfl

@[simp] theorem addMessage_app_name (s : SessionData) (role content now : String) :
    (s.addMessage role content now).app_name = s.app_name := by
  simp only [SessionData.addMessage]
  split <;> rfl

@[simp] theorem addMessage_created_at (s : SessionData) (role content now : String) :
    (s.addMessage role content now).created_at = s.created_at := by
  simp only [SessionData.addMessage]
  split <;> rfl

@[simp] theorem addMessage_messages (s : SessionData) (role content now : String) :
    (s.addMessage role content now).messages = s.messages ++ [⟨role, content, now⟩] := by
  simp only [SessionData.addMessage]
  split <;> rfl

/-- Round trip through the on-disk dictionary form is the identity; shared by
the persistence proofs. -/
theorem fromDict_toDict (s : SessionData) :
    SessionData.fromDict (SessionData.toDict s) = s := by
  have hmap : ∀ l : List ConversationMessage,
      ((l.map fun m => (⟨m.role, m.content, some m.timestamp⟩ : MessageDict)).map
        fun m => (⟨m.role, m.content, m.timestamp.getD ""⟩ : ConversationMessage)) = l := by
    intro l
    induction l with
    | nil => rfl
    | cons h t ih =>
      cases h
      simp [ih]
  cases s with
  | mk sid uid app title ca ua msgs meta =>
    simp [SessionData.toDict, SessionData.fromDict, hmap]

/- ===================================================================
   PersistentSessionStore — session_store.py
   =================================================================== -/

/-- File contents as the store sees them: either a dictionary that json.load
and SessionData.from_dict accept, or anything that makes loading raise. -/
inductive FileContent where
  | parseable (d : SessionDict)
  | corrupt
deriving DecidableEq

/-- PersistentSessionStore state: the configured directory, the in-memory
cache, and the on-disk directory contents keyed by path string. -/
structure StoreState where
  sessionsDir : String
  cache : List (String × SessionData)
  disk : List (String × FileContent)
deriving DecidableEq

/-- PersistentSessionStore._get_session_file: the pathlib join
self.sessions_dir / f"{session_id}.json" for a relative session id. -/
def getSessionFile (dir sid : String) : String :=
  dir ++ "/" ++ sid ++ ".json"

/-- PersistentSessionStore.get_session: cache first, then disk; a file that
fails to load yields None (the exception is printed and swallowed); a loaded
session is cached. -/
def getSession (st : StoreState) (sid : String) : Option SessionData × StoreState :=
  match lookupA sid st.cache with
  | some s => (some s, st)
  | none =>
    match lookupA (getSessionFile st.sessionsDir sid) st.disk with
    | some (FileContent.parseable d) =>
      let s := SessionData.fromDict d
      (some s, { st with cache := insertA sid s st.cache })
    | some FileContent.corrupt => (none, st)
    | none => (none, st)

/-- PersistentSessionStore.save_session: a single direct json.dump into the
session file; a raising write (writeOk = false) is caught and printed, leaving
the state unchanged. -/
def saveSession (writeOk : Bool) (st : StoreState) (s : SessionData) : StoreState :=
  if writeOk then
    { st with disk := insertA (getSessionFile st.sessionsDir s.session_id) (FileContent.parseable s.toDict) st.disk }
  else st

/-- The SessionData value the constructor builds for a new session: given user
id, defaults for the rest, created_at and updated_at from datetime.now(). -/
def freshSession (sid uid now : String) : SessionData :=
  { session_id := sid
    user_id := uid
    app_name := "orchestrator"
    title := ""
    created_at := now
    updated_at := now
    messages := []
    metadata := [] }

/-- PersistentSessionStore.create_session: build a fresh SessionData with the
given user id, cache it and save it. -/
def createSession (writeOk : Bool) (st : StoreState) (sid uid now : String) :
    SessionData × StoreState :=
  let s := freshSession sid uid now
  let st1 := { st with cache := insertA sid s st.cache }
  (s, saveSession writeOk st1 s)

/-- PersistentSessionStore.add_message: get or create the session, append the
message in place (the cache aliases the same object), save, and return the
session. -/
def storeAddMessage (writeOk : Bool) (st : StoreState) (sid role content uid now : String) :
    Option SessionData × StoreState :=
  let r := getSession st sid
  let p : SessionData × StoreState :=
    match r.1 with
    | some s => (s, r.2)
    | none => createSession writeOk r.2 sid uid now
  let s2 := p.1.addMessage role content now
  let st3 := { p.2 with cache := insertA sid s2 p.2.cache }
  (some s2, saveSession writeOk st3 s2)

/-- PersistentSessionStore.delete_session: drop the cache entry, then unlink
the session file if it exists. -/
def deleteSession (st : StoreState) (sid : String) : Bool × StoreState :=
  let st1 := { st with cache := eraseA sid st.cache }
  let path := getSessionFile st.sessionsDir sid
  match lookupA path st1.disk with
  | some _ => (true, { st1 with disk := eraseA path st1.disk })
  | none => (false, st1)

/-- A process restart: the in-memory cache is gone, the disk survives. -/
def restart (st : StoreState) : StoreState :=
  { st with cache := [] }

/-- Appending a list of messages through the store, one add_message call per
message, each with its own timestamp. -/
def appendAll (st : StoreState) (sid uid : String) (msgs : List ConversationMessage) :
    StoreState :=
  msgs.foldl (fun st m => (storeAddMessage true st sid m.role m.content uid m.timestamp).2) st

/- ===================================================================
   Path normalization — the safety language for claim C6
   =================================================================== -/

/-- Split a character list at a separator, accumulating the current component
in reverse; the meaning of Python's str.split. -/
def splitCharAux (sep : Char) : List Char → List Char → List (List Char)
  | acc, [] => [acc.reverse]
  | acc, c :: rest =>
    if c = sep then acc.reverse :: splitCharAux sep [] rest
    else splitCharAux sep (c :: acc) rest

/-- The slash-separated components of a path string. -/
def pathComponents (p : String) : List String :=
  (splitCharAux '/' [] p.data).map String.mk

/-- Resolve "." , "" and ".." components of a path, left to right, with the
accumulator holding the resolved components in reverse. -/
def normAux : List String → List String → List String
  | acc, [] => acc.reverse
  | acc, c :: rest =>
    if c = "" ∨ c = "." then normAux acc rest
    else if c = ".." then normAux (acc.drop 1) rest
    else normAux (c :: acc) rest

/-- Normalized component list of a path string. -/
def normalizePath (p : String) : List String :=
  normAux [] (pathComponents p)

/-- A path lies under a directory when the directory's normalized components
are a prefix of the path's. -/
def isUnder (dir p : String) : Bool :=
  List.isPrefixOf (normalizePath dir) (normalizePath p)

/- ===================================================================
   File-system operation trace of save_session — claim C5
   =================================================================== -/

/-- The file-system operations a write path could perform. -/
inductive FsOp where
  | writeFile (path : String) (contents : SessionDict)
  | renameFile (src dst : String)
deriving DecidableEq

/-- The operations save_session performs: one direct write of the whole
dictionary into the final session file — no temporary file, no rename. -/
def saveSessionTrace (dir : String) (s : SessionData) : List FsOp :=
  [FsOp.writeFile (getSessionFile dir s.session_id) s.toDict]

/- ===================================================================
   HTTP layer — main.py
   =================================================================== -/

/-- GET /sessions/{session_id}: 404 when the store returns None, else 200. -/
def apiGetSessionStatus (st : StoreState) (sid : String) : Nat :=
  match (getSession st sid).1 with
  | none => 404
  | some _ => 200

/-- OrchestratorAgent.chat with save_to_store = True: persist the user
message, run the selected agent (its final text is the resp argument; runner
exceptions are caught inside the stream and never propagate), persist the
assistant message, return the text. -/
def agentChat (st : StoreState) (msg uid sid resp now1 now2 : String) :
    String × StoreState :=
  let st1 := (storeAddMessage true st sid "user" msg uid now1).2
  (resp, (storeAddMessage true st1 sid "assistant" resp uid now2).2)

/-- POST /chat: 503 before the agent is initialized; otherwise run
OrchestratorAgent.chat and answer 200.  The request model ChatRequest declares
message as a plain str with no emptiness constraint, so no validation step
appears between the request and agent.chat. -/
def chatEndpoint (agentInit : Bool) (st : StoreState)
    (msg uid sid resp now1 now2 : String) : Nat × StoreState :=
  if agentInit then
    let r := agentChat st msg uid sid resp now1 now2
    (200, r.2)
  else (503, st)

/- ===================================================================
   Query router — agent.py
   =================================================================== -/

/-- Substring occurrence on character lists, scanning left to right: the
meaning of the Python expression kw in query. -/
def listContainsSub (pat : List Char) : List Char → Bool
  | [] => List.isPrefixOf pat []
  | c :: rest => List.isPrefixOf pat (c :: rest) || listContainsSub pat rest

/-- Python's kw in s on strings: substring containment over code points. -/
def containsSubstr (s pat : String) : Bool :=
  listContainsSub pat.data s.data

/-- Python's str.lower as a character-wise map, matching the ASCII keyword
lists the router compares against. -/
def strLower (s : String) : String :=
  String.mk (s.data.map Char.toLower)

/-- Python's str.upper, used for the section headings of the combined
report. -/
def strUpper (s : String) : String :=
  String.mk (s.data.map Char.toUpper)

/-- Python's s.startswith(pre), used to recognise the error template. -/
def hasPre (pre s : String) : Bool :=
  List.isPrefixOf pre.data s.data

theorem isPrefixOf_iff_exists (p l : List Char) :
    List.isPrefixOf p l = true ↔ ∃ t, l = p ++ t := by
  induction p generalizing l with
  | nil =>
    simp [List.isPrefixOf]
  | cons a as ih =>
    cases l with
    | nil => simp [List.isPrefixOf]
    | cons b bs =>
      rw [show List.isPrefixOf (a :: as) (b :: bs) = (a == b && List.isPrefixOf as bs) from rfl]
      simp only [Bool.and_eq_true, beq_iff_eq, ih]
      constructor
      · rintro ⟨rfl, t, rfl⟩
        exact ⟨t, rfl⟩
      · rintro ⟨t, ht⟩
        injection ht with h1 h2
        exact ⟨h1.symm, t, h2⟩

theorem listContainsSub_iff (pat l : List Char) :
    listContainsSub pat l = true ↔ ∃ s t, l = s ++ pat ++ t := by
  induction l with
  | nil =>
    rw [show listContainsSub pat [] = List.isPrefixOf pat [] from rfl, isPrefixOf_iff_exists]
    constructor
    · rintro ⟨t, ht⟩
      exact ⟨[], t, by simpa using ht⟩
    · rintro ⟨s, t, h⟩
      replace h := h.symm
      simp only [List.append_eq_nil] at h
      obtain ⟨⟨hs, hp⟩, ht⟩ := h
      exact ⟨t, by simp [hp, ht]⟩
  | cons c rest ih =>
    rw [show listContainsSub pat (c :: rest)
          = (List.isPrefixOf pat (c :: rest) || listContainsSub pat rest) from rfl]
    rw [Bool.or_eq_true, isPrefixOf_iff_exists, ih]
    constructor
    · rintro (⟨t, ht⟩ | ⟨s, t, ht⟩)
      · exact ⟨[], t, by simpa using ht⟩
      · exact ⟨c :: s, t, by simp [ht]⟩
    · rintro ⟨s, t, ht⟩
      cases s with
      | nil =>
        left
        exact ⟨t, by simpa using ht⟩
      | cons c' s' =>
        right
        simp only [List.cons_append, List.cons.injEq] at ht
        exact ⟨s', t, ht.2⟩

/-- Whole-string form of the substring characterization. -/
theorem containsSubstr_iff (s pat : String) :
    containsSubstr s pat = true ↔ ∃ pre suf, s.data = pre ++ pat.data ++ suf :=
  listContainsSub_iff pat.data s.data

/-- OrchestratorAgent._is_platform_specific_query: the jenkins keyword list. -/
def jenkins_keywords : List String :=
  ["jenkins", "pipeline", "build job", "jenkins job", "jenkinsfile", "ci/cd pipeline"]

/-- OrchestratorAgent._is_platform_specific_query: the kubernetes keyword list. -/
def k8s_keywords : List String :=
  ["kubernetes", "k8s", "pod", "deployment", "kubectl", "namespace", "container", "helm", "kube"]

/-- OrchestratorAgent._is_rca_query: the RCA indicator list. -/
def rca_indicators : List String :=
  ["failing", "failed", "error", "broken", "not working", "issue", "problem",
   "why", "debug", "troubleshoot", "investigate", "rca", "root cause",
   "crashing", "down", "unavailable", "timeout", "stuck", "help"]

/-- OrchestratorAgent._is_platform_specific_query: lower-case the query, scan
the jenkins keywords first and return on the first hit, then the kubernetes
keywords; the loops realize an existence check over each list. -/
def isPlatformSpecificQuery (q : String) : Option String :=
  if jenkins_keywords.any (fun kw => containsSubstr (strLower q) kw) then some "jenkins"
  else if k8s_keywords.any (fun kw => containsSubstr (strLower q) kw) then some "kubernetes"
  else none

/-- OrchestratorAgent._is_rca_query. -/
def isRcaQuery (q : String) : Bool :=
  rca_indicators.any (fun kw => containsSubstr (strLower q) kw)

/-- Where OrchestratorAgent.chat sends the turn. -/
inductive Destination where
  | mainAgent
  | parallelRcaCoordinator
deriving DecidableEq

/-- OrchestratorAgent.initialize: the parallel RCA agent is created exactly
when more than one sub-agent exists. -/
def initParallelAgent (numSubAgents : Nat) : Bool :=
  decide (1 < numSubAgents)

/-- The routing condition of OrchestratorAgent.chat: parallel RCA when the
query has RCA intent, is not platform-specific, a parallel agent exists and
there are more than one sub-agents; the main agent otherwise. -/
def routeChat (q : String) (numSubAgents : Nat) (hasParallelAgent : Bool) : Destination :=
  if isRcaQuery q && (isPlatformSpecificQuery q).isNone && hasParallelAgent
      && decide (1 < numSubAgents) then
    Destination.parallelRcaCoordinator
  else
    Destination.mainAgent

/- ===================================================================
   Parallel RCA fan-out and report synthesis — agent.py
   =================================================================== -/

/-- The error string _parallel_rca records for a branch whose task raised. -/
def errorTemplate (msg : String) : String :=
  "❌ Error during investigation: " ++ msg

/-- One branch outcome of asyncio.gather(..., return_exceptions=True): either
the specialist's report or the raised exception's message. -/
def branchText : Except String String → String
  | Except.error e => errorTemplate e
  | Except.ok r => r

/-- True on a branch whose task raised. -/
def isErrBranch : Except String String → Bool
  | Except.error _ => true
  | Except.ok _ => false

/-- A branch whose report does not itself imitate the error template. -/
def okNotTemplate : Except String String → Bool
  | Except.ok r => !(hasPre "❌ Error during investigation: " r)
  | Except.error _ => true

/-- OrchestratorAgent._parallel_rca: the results dict, keyed by server name in
registration order, holding each branch's report or its error template. -/
def parallelRcaResults (branches : List (String × Except String String)) :
    List (String × String) :=
  branches.map fun b => (b.1, branchText b.2)

/-- Header lines of _combine_rca_results. -/
def rcaHeaderLines (q : String) (names : List String) : List String :=
  ["# 🔍 Parallel Root Cause Analysis Report", "",
   "**Issue**: " ++ q, "",
   "**Platforms Investigated**: " ++ String.intercalate ", " names, "",
   "---", ""]

/-- The six lines the loop of _combine_rca_results appends for one platform. -/
def rcaSectionLines (platform findings : String) : List String :=
  ["## 📊 " ++ strUpper platform ++ " Investigation", "", findings, "", "---", ""]

/-- The fixed summary footer of _combine_rca_results. -/
def rcaFooterLines : List String :=
  ["## 📋 Combined Summary", "",
   "Review the findings above from each platform to identify the root cause.",
   "Cross-reference issues that appear in multiple platforms."]

/-- OrchestratorAgent._combine_rca_results as the line list it accumulates:
header, then the per-platform loop, then the footer. -/
def combineRcaLines (q : String) (results : List (String × String)) : List String :=
  (results.foldl (fun acc pr => acc ++ rcaSectionLines pr.1 pr.2)
    (rcaHeaderLines q (results.map Prod.fst))) ++ rcaFooterLines

/-- OrchestratorAgent._combine_rca_results: the joined report text. -/
def combineRcaResults (q : String) (results : List (String × String)) : String :=
  String.intercalate "\n" (combineRcaLines q results)

/-- OrchestratorAgent._parallel_rca end to end: gather all branches with
per-branch error capture, then mechanical synthesis. -/
def parallelRca (q : String) (branches : List (String × Except String String)) : String :=
  combineRcaResults q (parallelRcaResults branches)

/- ===================================================================
   Helper lemmas about the store
   =================================================================== -/

@[simp] theorem saveSession_cache (wk : Bool) (st : StoreState) (s : SessionData) :
    (saveSession wk st s).cache = st.cache := by
  cases wk <;> simp [saveSession]

@[simp] theorem saveSession_dir (wk : Bool) (st : StoreState) (s : SessionData) :
    (saveSession wk st s).sessionsDir = st.sessionsDir := by
  cases wk <;> simp [saveSession]

@[simp] theorem getSession_dir (st : StoreState) (sid : String) :
    (getSession st sid).2.sessionsDir = st.sessionsDir := by
  unfold getSession
  cases lookupA sid st.cache with
  | some s => rfl
  | none =>
    cases lookupA (getSessionFile st.sessionsDir sid) st.disk with
    | none => rfl
    | some fc =>
      cases fc with
      | parseable d => rfl
      | corrupt => rfl

@[simp] theorem freshSession_session_id (sid uid now : String) :
    (freshSession sid uid now).session_id = sid := rfl

@[simp] theorem freshSession_messages (sid uid now : String) :
    (freshSession sid uid now).messages = [] := rfl

/-- Shared shape of one add_message call: it acknowledges some session, that
session is what a following get_session returns (it sits in the cache), its
message list extends the previous one by the new message, and the directory is
untouched. -/
theorem storeAddMessage_spec (wk : Bool) (st : StoreState) (sid role content uid now : String) :
    ∃ s2, (storeAddMessage wk st sid role content uid now).1 = some s2
      ∧ (getSession ((storeAddMessage wk st sid role content uid now).2) sid).1 = some s2
      ∧ s2.messages
          = (match (getSession st sid).1 with
              | some s => s.messages
              | none => ([] : List ConversationMessage)) ++ [⟨role, content, now⟩]
      ∧ ((storeAddMessage wk st sid role content uid now).2).sessionsDir = st.sessionsDir := by
  cases hg : (getSession st sid).1 with
  | some s =>
    refine ⟨s.addMessage role content now, ?_, ?_, ?_, ?_⟩
    · simp [storeAddMessage, hg]
    · have hcache : lookupA sid ((storeAddMessage wk st sid role content uid now).2).cache
          = some (s.addMessage role content now) := by
        simp [storeAddMessage, hg]
      simp [getSession, hcache]
    · simp
    · simp [storeAddMessage, hg]
  | none =>
    refine ⟨(freshSession sid uid now).addMessage role content now, ?_, ?_, ?_, ?_⟩
    · simp [storeAddMessage, hg, createSession]
    · have hcache : lookupA sid ((storeAddMessage wk st sid role content uid now).2).cache
          = some ((freshSession sid uid now).addMessage role content now) := by
        simp [storeAddMessage, hg, createSession]
      simp [getSession, hcache]
    · simp
    · simp [storeAddMessage, hg, createSession]

/- ===================================================================
   Claim C4 — session title derivation
   =================================================================== -/

/-- A 51-character content, one past the truncation threshold. -/
def longContent : String := String.mk (List.replicate 51 'a')

/-- A session before its first user message: empty title, empty history. -/
def untitledSession : SessionData :=
  { session_id := "s1"
    user_id := "u"
    app_name := "orchestrator"
    title := ""
    created_at := "t0"
    updated_at := "t0"
    messages := []
    metadata := [] }

/-- Claim C4 as stated is false: with a 51-character content, add_message
sets the title to the first 50 characters followed by the three-character
ASCII suffix "...", which differs from the single ellipsis character
required by the claim. -/
theorem title_ellipsis_counterexample :
    (untitledSession.addMessage "user" longContent "t1").title
        = String.mk (List.replicate 50 'a') ++ "..."
    ∧ ¬ (untitledSession.addMessage "user" longContent "t1").title
        = String.mk (List.replicate 50 'a') ++ "…" := by
  decide

/-- Claim C4 (amended): appending a user message to an untitled session sets
the title to the first 50 characters of the content, suffixed with the
three-character string "..." exactly when the content is longer than 50
characters; a non-user message or an already-titled session leaves the title
unchanged. -/
theorem title_truncation_amended (s : SessionData) (role content now : String) :
    (s.title = "" → (s.addMessage "user" content now).title
        = content.take 50 ++ (if 50 < content.length then "..." else ""))
    ∧ (role ≠ "user" → (s.addMessage role content now).title = s.title)
    ∧ (s.title ≠ "" → (s.addMessage role content now).title = s.title) := by
  refine ⟨?_, ?_, ?_⟩
  · intro h
    simp [SessionData.addMessage, h]
  · intro h
    simp [SessionData.addMessage, h]
  · intro h
    simp [SessionData.addMessage, h]

/-- Witness for the amended C4 at concrete inputs: a short user message
becomes the title verbatim, and an assistant message leaves the empty title
alone. -/
theorem title_truncation_amended_witness :
    (untitledSession.addMessage "user" "hello" "t1").title = "hello"
    ∧ (untitledSession.addMessage "assistant" "hello" "t1").title = "" := by
  constructor
  · exact ((title_truncation_amended untitledSession "assistant" "hello" "t1").1 rfl).trans
      (by decide)
  · exact (title_truncation_amended untitledSession "assistant" "hello" "t1").2.1 (by decide)

/- ===================================================================
   Claim C2 — the routing decision table
   =================================================================== -/

/-- Claim C2: with the parallel agent created by initialize (present exactly
when more than one specialist exists), the chat routing realizes the decision
table: platform-specific queries go to the main agent; non-specific queries
with RCA intent go to the parallel RCA coordinator when at least two
specialists exist; queries without RCA intent, and RCA queries with at most
one specialist, go to the main agent. -/
theorem router_decision_table (q : String) (n : Nat) :
    (isPlatformSpecificQuery q ≠ none →
      routeChat q n (initParallelAgent n) = Destination.mainAgent)
    ∧ (isPlatformSpecificQuery q = none → isRcaQuery q = true → 2 ≤ n →
      routeChat q n (initParallelAgent n) = Destination.parallelRcaCoordinator)
    ∧ (isRcaQuery q = false →
      routeChat q n (initParallelAgent n) = Destination.mainAgent)
    ∧ (n ≤ 1 →
      routeChat q n (initParallelAgent n) = Destination.mainAgent) := by
  refine ⟨?_, ?_, ?_, ?_⟩
  · intro h
    have hns : (isPlatformSpecificQuery q).isNone = false := by
      cases hq : isPlatformSpecificQuery q with
      | none => exact absurd hq h
      | some v => rfl
    simp [routeChat, hns]
  · intro h1 h2 h3
    have hn : decide (1 < n) = true := by
      simp only [decide_eq_true_eq]
      omega
    simp [routeChat, h1, h2, hn, initParallelAgent]
  · intro h
    simp [routeChat, h]
  · intro h
    have hn : decide (1 < n) = false := by
      simp only [decide_eq_false_iff_not]
      omega
    simp [routeChat, hn]

/-- Witness for C2 at concrete inputs: a generic RCA query with two
specialists reaches the coordinator; a jenkins-specific query goes to the
main agent. -/
theorem router_decision_table_witness :
    routeChat "service is broken, help" 2 (initParallelAgent 2)
        = Destination.parallelRcaCoordinator
    ∧ routeChat "jenkins pipeline is failing" 2 (initParallelAgent 2)
        = Destination.mainAgent := by
  constructor
  · exact (router_decision_table "service is broken, help" 2).2.1
      (by decide) (by decide) (by decide)
  · exact (router_decision_table "jenkins pipeline is failing" 2).1 (by decide)

/- ===================================================================
   Claim C3 — platform-specificity matching
   =================================================================== -/

/-- The keyword kw occurs as a contiguous substring of the lower-cased
query. -/
def keywordOccurs (kw q : String) : Prop :=
  ∃ pre suf, (strLower q).data = pre ++ kw.data ++ suf

/-- Claim C3 as stated is false: matching is not whole-word.  The word
"podcast" merely contains the kubernetes keyword "pod", yet the query is
classified platform-specific to kubernetes. -/
theorem platform_query_substring_counterexample :
    isPlatformSpecificQuery "podcast" = some "kubernetes" := by
  decide

/-- Claim C3 (amended): the predicate lower-cases the text and matches each
peer's keyword list by substring containment; the query is classified
specific to jenkins exactly when some jenkins keyword occurs, specific to
kubernetes exactly when no jenkins keyword but some kubernetes keyword
occurs (jenkins, scanned first, wins ties), and non-specific exactly when
neither list matches. -/
theorem platform_query_substring_characterization (q : String) :
    (isPlatformSpecificQuery q = some "jenkins"
        ↔ ∃ kw ∈ jenkins_keywords, keywordOccurs kw q)
    ∧ (isPlatformSpecificQuery q = some "kubernetes"
        ↔ ((¬ ∃ kw ∈ jenkins_keywords, keywordOccurs kw q)
            ∧ ∃ kw ∈ k8s_keywords, keywordOccurs kw q))
    ∧ (isPlatformSpecificQuery q = none
        ↔ ((¬ ∃ kw ∈ jenkins_keywords, keywordOccurs kw q)
            ∧ ¬ ∃ kw ∈ k8s_keywords, keywordOccurs kw q)) := by
  have hj : (jenkins_keywords.any fun kw => containsSubstr (strLower q) kw) = true
      ↔ ∃ kw ∈ jenkins_keywords, keywordOccurs kw q := by
    simp only [List.any_eq_true, containsSubstr_iff, keywordOccurs]
  have hk : (k8s_keywords.any fun kw => containsSubstr (strLower q) kw) = true
      ↔ ∃ kw ∈ k8s_keywords, keywordOccurs kw q := by
    simp only [List.any_eq_true, containsSubstr_iff, keywordOccurs]
  by_cases h1 : (jenkins_keywords.any fun kw => containsSubstr (strLower q) kw) = true
  · refine ⟨?_, ?_, ?_⟩
    · simp only [isPlatformSpecificQuery, h1, if_true]
      constructor
      · intro _
        exact hj.mp h1
      · intro _
        trivial
    · simp only [isPlatformSpecificQuery, h1, if_true]
      constructor
      · intro hfalse
        exact absurd hfalse (by simp)
      · rintro ⟨hnj, _⟩
        exact absurd (hj.mp h1) hnj
    · simp only [isPlatformSpecificQuery, h1, if_true]
      constructor
      · intro hfalse
        exact absurd hfalse (by simp)
      · rintro ⟨hnj, _⟩
        exact absurd (hj.mp h1) hnj
  · have hnj : ¬ ∃ kw ∈ jenkins_keywords, keywordOccurs kw q := fun hx => h1 (hj.mpr hx)
    by_cases h2 : (k8s_keywords.any fun kw => containsSubstr (strLower q) kw) = true
    · refine ⟨?_, ?_, ?_⟩
      · simp only [isPlatformSpecificQuery, h1, if_false, h2, if_true]
        constructor
        · intro hfalse
          exact absurd hfalse (by simp)
        · intro hx
          exact absurd hx hnj
      · simp only [isPlatformSpecificQuery, h1, if_false, h2, if_true]
        constructor
        · intro _
          exact ⟨hnj, hk.mp h2⟩
        · intro _
          trivial
      · simp only [isPlatformSpecificQuery, h1, if_false, h2, if_true]
        constructor
        · intro hfalse
          exact absurd hfalse (by simp)
        · rintro ⟨_, hnk⟩
          exact absurd (hk.mp h2) hnk
    · have hnk : ¬ ∃ kw ∈ k8s_keywords, keywordOccurs kw q := fun hx => h2 (hk.mpr hx)
      refine ⟨?_, ?_, ?_⟩
      · simp only [isPlatformSpecificQuery, h1, if_false, h2]
        constructor
        · intro hfalse
          exact absurd hfalse (by simp)
        · intro hx
          exact absurd hx hnj
      · simp only [isPlatformSpecificQuery, h1, if_false, h2]
        constructor
        · intro hfalse
          exact absurd hfalse (by simp)
        · rintro ⟨_, hke⟩
          exact absurd hke hnk
      · simp only [isPlatformSpecificQuery, h1, if_false, h2]
        constructor
        · intro _
          exact ⟨hnj, hnk⟩
        · intro _
          trivial

/- ===================================================================
   Claim C9 — frame conditions of add_message on an existing session
   =================================================================== -/

/-- Claim C9: add_message on an existing session returns that session with
just the new message appended; user id, app name, creation time and the
previous messages are untouched, and the user_id argument plays no role (the
result is identical for any two values of it). -/
theorem add_message_frame (st : StoreState) (sid role content uid uid' now : String)
    (s : SessionData) (h : (getSession st sid).1 = some s) :
    (storeAddMessage true st sid role content uid now).1
        = some (s.addMessage role content now)
    ∧ (s.addMessage role content now).user_id = s.user_id
    ∧ (s.addMessage role content now).app_name = s.app_name
    ∧ (s.addMessage role content now).created_at = s.created_at
    ∧ (s.addMessage role content now).messages = s.messages ++ [⟨role, content, now⟩]
    ∧ storeAddMessage true st sid role content uid now
        = storeAddMessage true st sid role content uid' now := by
  refine ⟨?_, by simp, by simp, by simp, by simp, ?_⟩
  · simp [storeAddMessage, h]
  · simp [storeAddMessage, h]

/-- An existing session and a store caching it, for the C9 witness. -/
def demoSession : SessionData :=
  { session_id := "s1"
    user_id := "u0"
    app_name := "orchestrator"
    title := "old title"
    created_at := "T0"
    updated_at := "T1"
    messages := [⟨"user", "old", "T0"⟩]
    metadata := [] }

/-- A store whose cache holds demoSession. -/
def demoStore : StoreState :=
  { sessionsDir := "sessions"
    cache := [("s1", demoSession)]
    disk := [] }

/-- Witness for C9 at a concrete store: the appended session keeps user id,
app name, creation time and the old message. -/
theorem add_message_frame_witness :
    (storeAddMessage true demoStore "s1" "assistant" "new" "ignored" "T2").1
        = some (demoSession.addMessage "assistant" "new" "T2")
    ∧ (demoSession.addMessage "assistant" "new" "T2").user_id = "u0"
    ∧ (demoSession.addMessage "assistant" "new" "T2").messages
        = [⟨"user", "old", "T0"⟩, ⟨"assistant", "new", "T2"⟩] := by
  have h := add_message_frame demoStore "s1" "assistant" "new" "ignored" "other" "T2"
    demoSession (by decide)
  exact ⟨h.1, h.2.1, h.2.2.2.2.1.trans (by decide)⟩

/- ===================================================================
   Claim C10 — unparseable session file
   =================================================================== -/

/-- Claim C10: when the session file exists but fails to parse and the id is
not cached, get_session returns None (so the API answers 404), and a
following add_message creates a fresh session whose only message is the new
one, with the given user id; its save overwrites the unparseable file. -/
theorem corrupt_file_fresh_session (dir sid uid role content now : String)
    (cache : List (String × SessionData)) (disk : List (String × FileContent))
    (hc : lookupA sid cache = none)
    (hd : lookupA (getSessionFile dir sid) disk = some FileContent.corrupt) :
    (getSession (StoreState.mk dir cache disk) sid).1 = none
    ∧ apiGetSessionStatus (StoreState.mk dir cache disk) sid = 404
    ∧ (∃ s', (storeAddMessage true (StoreState.mk dir cache disk) sid role content uid now).1
          = some s'
        ∧ s'.session_id = sid
        ∧ s'.user_id = uid
        ∧ s'.created_at = now
        ∧ s'.messages = [⟨role, content, now⟩]
        ∧ lookupA (getSessionFile dir sid)
            ((storeAddMessage true (StoreState.mk dir cache disk) sid role content uid now).2).disk
          = some (FileContent.parseable s'.toDict)) := by
  have hg : getSession (StoreState.mk dir cache disk) sid = (none, StoreState.mk dir cache disk) := by
    simp [getSession, hc, hd]
  refine ⟨?_, ?_, ?_⟩
  · rw [hg]
  · simp [apiGetSessionStatus, hg]
  · refine ⟨(freshSession sid uid now).addMessage role content now, ?_, ?_, ?_, ?_, ?_, ?_⟩
    · simp [storeAddMessage, hg, createSession]
    · simp [freshSession]
    · simp [freshSession]
    · simp [freshSession]
    · simp [freshSession]
    · simp [storeAddMessage, hg, createSession, saveSession]

/-- Witness for C10 at a concrete store holding one corrupt file. -/
theorem corrupt_file_fresh_session_witness :
    (getSession (StoreState.mk "sessions" [] [("sessions/s1.json", FileContent.corrupt)]) "s1").1
        = none
    ∧ apiGetSessionStatus
        (StoreState.mk "sessions" [] [("sessions/s1.json", FileContent.corrupt)]) "s1" = 404 := by
  have h := corrupt_file_fresh_session "sessions" "s1" "u" "user" "hi" "t1" []
    [("sessions/s1.json", FileContent.corrupt)] (by decide) (by decide)
  exact ⟨h.1, h.2.1⟩

/- ===================================================================
   Claim C6 — session ids containing path separators
   =================================================================== -/

/-- A parseable session dictionary sitting outside the sessions directory,
for the C6 theorem. -/
def outsideDict : SessionDict :=
  { session_id := "../evil"
    user_id := "u"
    app_name := some "orchestrator"
    title := some ""
    created_at := some "T"
    updated_at := some "T"
    messages := some []
    metadata := some [] }

/-- Claim C6 is a code bug: _get_session_file interpolates the session id
into the path unchecked, so the id "../evil" resolves to
sessions/../evil.json — outside the sessions directory — while a plain id
stays inside; get_session happily reads that outside file, add_message
creates it, and delete_session unlinks it.  Nothing rejects the id. -/
theorem session_id_path_escape :
    getSessionFile "sessions" "../evil" = "sessions/../evil.json"
    ∧ isUnder "sessions" (getSessionFile "sessions" "../evil") = false
    ∧ isUnder "sessions" (getSessionFile "sessions" "s1") = true
    ∧ (getSession
        (StoreState.mk "sessions" [] [("sessions/../evil.json", FileContent.parseable outsideDict)])
        "../evil").1
      = some (SessionData.fromDict outsideDict)
    ∧ (lookupA "sessions/../evil.json"
        ((storeAddMessage true (StoreState.mk "sessions" [] []) "../evil" "user" "hi" "u" "T").2).disk).isSome
      = true
    ∧ (deleteSession
        (StoreState.mk "sessions" [] [("sessions/../evil.json", FileContent.parseable outsideDict)])
        "../evil").1
      = true := by
  decide

/- ===================================================================
   Claim C5 — atomicity and durability of session writes
   =================================================================== -/

/-- The session add_message builds and acknowledges for the C5 scenario. -/
def lostSession : SessionData :=
  { session_id := "s1"
    user_id := "u1"
    app_name := "orchestrator"
    title := "hello"
    created_at := "t1"
    updated_at := "t1"
    messages := [⟨"user", "hello", "t1"⟩]
    metadata := [] }

/-- Claim C5 is a code bug: save_session performs one direct write into the
final session file (no temporary file, no rename), and because it swallows
write errors, an add_message whose underlying write raises still acknowledges
the message — the disk is unchanged and after a restart the session is gone. -/
theorem save_not_atomic_not_durable :
    (storeAddMessage false (StoreState.mk "sessions" [] []) "s1" "user" "hello" "u1" "t1").1
        = some lostSession
    ∧ (storeAddMessage false (StoreState.mk "sessions" [] []) "s1" "user" "hello" "u1" "t1").2.disk
        = []
    ∧ (getSession
        (restart ((storeAddMessage false (StoreState.mk "sessions" [] []) "s1" "user" "hello" "u1" "t1").2))
        "s1").1
      = none
    ∧ saveSessionTrace "sessions" lostSession
        = [FsOp.writeFile "sessions/s1.json" lostSession.toDict] := by
  decide

/- ===================================================================
   Claim C7 — empty user text at POST /chat
   =================================================================== -/

/-- Claim C7 as stated is false: a POST /chat with the empty message is
answered 200, and the empty user message (followed by the assistant reply) is
appended to the session. -/
theorem empty_message_accepted_counterexample :
    (chatEndpoint true (StoreState.mk "sessions" [] []) "" "u" "s1" "resp" "t1" "t2").1 = 200
    ∧ ((getSession
          ((chatEndpoint true (StoreState.mk "sessions" [] []) "" "u" "s1" "resp" "t1" "t2").2)
          "s1").1).map SessionData.messages
      = some [⟨"user", "", "t1"⟩, ⟨"assistant", "resp", "t2"⟩] := by
  decide

/-- Claim C7 (amended): the API performs no emptiness validation at all — for
every message text, the empty one included, an initialized agent yields
status 200 and the session gains the user message and the assistant reply. -/
theorem empty_message_no_validation (st : StoreState) (msg uid sid resp t1 t2 : String) :
    (chatEndpoint true st msg uid sid resp t1 t2).1 = 200
    ∧ ∃ s' pre, (getSession ((chatEndpoint true st msg uid sid resp t1 t2).2) sid).1 = some s'
        ∧ s'.messages = pre ++ [⟨"user", msg, t1⟩, ⟨"assistant", resp, t2⟩] := by
  constructor
  · rfl
  · obtain ⟨s1, hs1a, hs1g, hs1m, _⟩ :=
      storeAddMessage_spec true st sid "user" msg uid t1
    obtain ⟨s2, hs2a, hs2g, hs2m, _⟩ :=
      storeAddMessage_spec true ((storeAddMessage true st sid "user" msg uid t1).2)
        sid "assistant" resp uid t2
    refine ⟨s2, (match (getSession st sid).1 with
        | some s => s.messages
        | none => ([] : List ConversationMessage)), ?_, ?_⟩
    · simpa [chatEndpoint, agentChat] using hs2g
    · rw [hs2m, hs1g]
      simp [hs1m]

/- ===================================================================
   Claim C8 — save/load round trip and persistence across restart
   =================================================================== -/

/-- Invariant carried through a run of add_message calls: the cache keeps a
session extending the starting one by exactly the appended messages, and the
session file on disk holds its dictionary form. -/
theorem appendAll_disk (msgs : List ConversationMessage) (st : StoreState) (sid uid : String)
    (s : SessionData) (hsid : s.session_id = sid)
    (hc : lookupA sid st.cache = some s)
    (hdisk : lookupA (getSessionFile st.sessionsDir sid) st.disk
        = some (FileContent.parseable s.toDict)) :
    ∃ s', lookupA sid (appendAll st sid uid msgs).cache = some s'
      ∧ s'.session_id = sid
      ∧ s'.messages = s.messages ++ msgs
      ∧ (appendAll st sid uid msgs).sessionsDir = st.sessionsDir
      ∧ lookupA (getSessionFile st.sessionsDir sid) (appendAll st sid uid msgs).disk
          = some (FileContent.parseable s'.toDict) := by
  induction msgs generalizing st s with
  | nil =>
    exact ⟨s, by simpa [appendAll] using hc, hsid, by simp,
      rfl, by simpa [appendAll] using hdisk⟩
  | cons m rest ih =>
    have hget : getSession st sid = (some s, st) := by
      simp [getSession, hc]
    have happ : appendAll st sid uid (m :: rest)
        = appendAll ((storeAddMessage true st sid m.role m.content uid m.timestamp).2) sid uid rest := by
      simp [appendAll]
    have hcache1 :
        lookupA sid ((storeAddMessage true st sid m.role m.content uid m.timestamp).2).cache
          = some (s.addMessage m.role m.content m.timestamp) := by
      simp [storeAddMessage, hget]
    have hdir1 : ((storeAddMessage true st sid m.role m.content uid m.timestamp).2).sessionsDir
        = st.sessionsDir := by
      simp [storeAddMessage, hget]
    have hdisk1 :
        lookupA
          (getSessionFile ((storeAddMessage true st sid m.role m.content uid m.timestamp).2).sessionsDir sid)
          ((storeAddMessage true st sid m.role m.content uid m.timestamp).2).disk
          = some (FileContent.parseable (s.addMessage m.role m.content m.timestamp).toDict) := by
      simp [storeAddMessage, hget, saveSession, hsid]
    obtain ⟨s', h1, h2, h3, h4, h5⟩ :=
      ih ((storeAddMessage true st sid m.role m.content uid m.timestamp).2)
        (s.addMessage m.role m.content m.timestamp) (by simp [hsid]) hcache1 hdisk1
    rw [hdir1] at h5
    refine ⟨s', ?_, h2, ?_, ?_, ?_⟩
    · rw [happ]
      exact h1
    · rw [h3]
      simp
    · rw [happ, h4, hdir1]
    · rw [happ]
      exact h5

/-- Claim C8: serialising a session to its on-disk dictionary form and back
is the identity, and any nonempty run of add_message calls on a fresh store
survives a restart: get_session returns exactly the appended messages in
order, timestamps included. -/
theorem session_roundtrip_and_persistence :
    (∀ s : SessionData, SessionData.fromDict (SessionData.toDict s) = s)
    ∧ (∀ (sid uid : String) (msgs : List ConversationMessage), msgs ≠ [] →
        ((getSession (restart (appendAll (StoreState.mk "sessions" [] []) sid uid msgs)) sid).1).map
            SessionData.messages
          = some msgs) := by
  refine ⟨fromDict_toDict, ?_⟩
  intro sid uid msgs hne
  cases msgs with
  | nil => exact absurd rfl hne
  | cons m rest =>
    have hget0 : getSession (StoreState.mk "sessions" [] []) sid
        = (none, StoreState.mk "sessions" [] []) := by
      simp [getSession, lookupA]
    have hcache1 :
        lookupA sid
          ((storeAddMessage true (StoreState.mk "sessions" [] []) sid m.role m.content uid m.timestamp).2).cache
          = some ((freshSession sid uid m.timestamp).addMessage m.role m.content m.timestamp) := by
      simp [storeAddMessage, hget0, createSession]
    have hdir1 :
        ((storeAddMessage true (StoreState.mk "sessions" [] []) sid m.role m.content uid m.timestamp).2).sessionsDir
          = "sessions" := by
      simp [storeAddMessage, hget0, createSession]
    have hdisk1 :
        lookupA
          (getSessionFile ((storeAddMessage true (StoreState.mk "sessions" [] []) sid m.role m.content uid m.timestamp).2).sessionsDir sid)
          ((storeAddMessage true (StoreState.mk "sessions" [] []) sid m.role m.content uid m.timestamp).2).disk
          = some (FileContent.parseable
              ((freshSession sid uid m.timestamp).addMessage m.role m.content m.timestamp).toDict) := by
      simp [storeAddMessage, hget0, createSession, saveSession, hdir1]
    have happ : appendAll (StoreState.mk "sessions" [] []) sid uid (m :: rest)
        = appendAll ((storeAddMessage true (StoreState.mk "sessions" [] []) sid m.role m.content uid m.timestamp).2) sid uid rest := by
      simp [appendAll]
    obtain ⟨s', h1, h2, h3, h4, h5⟩ :=
      appendAll_disk rest
        ((storeAddMessage true (StoreState.mk "sessions" [] []) sid m.role m.content uid m.timestamp).2)
        sid uid ((freshSession sid uid m.timestamp).addMessage m.role m.content m.timestamp)
        (by simp) hcache1 hdisk1
    rw [hdir1] at h5
    have hdirA :
        (appendAll ((storeAddMessage true (StoreState.mk "sessions" [] []) sid m.role m.content uid m.timestamp).2) sid uid rest).sessionsDir
          = "sessions" := by
      rw [h4, hdir1]
    rw [happ]
    have hread :
        (getSession
          (restart (appendAll ((storeAddMessage true (StoreState.mk "sessions" [] []) sid m.role m.content uid m.timestamp).2) sid uid rest))
          sid).1
          = some (SessionData.fromDict s'.toDict) := by
      simp [getSession, restart, lookupA, hdirA, h5]
    rw [hread, fromDict_toDict]
    simp [h3]

/-- Witness for the persistence half of C8 at a concrete one-message run. -/
theorem session_roundtrip_and_persistence_witness :
    ((getSession
        (restart (appendAll (StoreState.mk "sessions" [] []) "s1" "u"
          [⟨"user", "hi", "t1"⟩]))
        "s1").1).map SessionData.messages
      = some [⟨"user", "hi", "t1"⟩] :=
  session_roundtrip_and_persistence.2 "s1" "u" [⟨"user", "hi", "t1"⟩] (by decide)

/- ===================================================================
   Claim C1 — structure of the combined parallel-RCA report
   =================================================================== -/

/-- The per-platform loop of _combine_rca_results, re-expressed: folding the
section appends equals the flattened map of sections after the initial
lines. -/
theorem foldl_sections (rs : List (String × String)) (init : List String) :
    rs.foldl (fun acc pr => acc ++ rcaSectionLines pr.1 pr.2) init
      = init ++ (rs.map fun pr => rcaSectionLines pr.1 pr.2).flatten := by
  induction rs generalizing init with
  | nil => simp
  | cons hd tl ih =>
    simp [ih, List.append_assoc]

theorem isPrefixOf_append_self (p t : List Char) :
    List.isPrefixOf p (p ++ t) = true :=
  (isPrefixOf_iff_exists p (p ++ t)).mpr ⟨t, rfl⟩

/-- The error template does start with the error-template marker. -/
theorem hasPre_errorTemplate (e : String) :
    hasPre "❌ Error during investigation: " (errorTemplate e) = true := by
  have hdata : (errorTemplate e).data
      = ("❌ Error during investigation: " : String).data ++ e.data :=
    String.data_append "❌ Error during investigation: " e
  rw [hasPre, hdata]
  exact isPrefixOf_append_self _ _

/-- Exactly the raising branches yield sections carrying the error-template
marker, provided no successful report imitates it. -/
theorem countP_error_sections (branches : List (String × Except String String))
    (h : branches.all (fun b => okNotTemplate b.2) = true) :
    (parallelRcaResults branches).countP
        (fun p => hasPre "❌ Error during investigation: " p.2)
      = branches.countP (fun b => isErrBranch b.2) := by
  induction branches with
  | nil => rfl
  | cons hd tl ih =>
    simp only [List.all_cons, Bool.and_eq_true] at h
    obtain ⟨h1, h2⟩ := h
    rw [show parallelRcaResults (hd :: tl)
          = (hd.1, branchText hd.2) :: parallelRcaResults tl from rfl,
      List.countP_cons, List.countP_cons, ih h2]
    cases hb : hd.2 with
    | ok r =>
      have hr : hasPre "❌ Error during investigation: " r = false := by
        rw [hb] at h1
        simpa [okNotTemplate] using h1
      simp [branchText, hb, hr, isErrBranch]
    | error e =>
      simp [branchText, hb, hasPre_errorTemplate, isErrBranch]

/-- Claim C1: a parallel RCA over N branches of which k raise produces a
report whose line list is the header (carrying the original query and the
peer list) followed by one six-line section per peer in registration order
followed by the fixed summary footer; each section's findings are that
branch's report, the error template exactly on the k raising branches (no
other branch is affected by them), and the total section count is N. -/
theorem parallel_rca_report_structure (q : String)
    (branches : List (String × Except String String))
    (hok : branches.all (fun b => okNotTemplate b.2) = true) :
    (parallelRcaResults branches).length = branches.length
    ∧ (parallelRcaResults branches).map Prod.fst = branches.map Prod.fst
    ∧ (∀ i (h1 : i < (parallelRcaResults branches).length) (h2 : i < branches.length),
        ((parallelRcaResults branches).get ⟨i, h1⟩).2
          = branchText ((branches.get ⟨i, h2⟩).2))
    ∧ (parallelRcaResults branches).countP
        (fun p => hasPre "❌ Error during investigation: " p.2)
      = branches.countP (fun b => isErrBranch b.2)
    ∧ combineRcaLines q (parallelRcaResults branches)
        = rcaHeaderLines q (branches.map Prod.fst)
          ++ ((parallelRcaResults branches).map fun pr => rcaSectionLines pr.1 pr.2).flatten
          ++ rcaFooterLines := by
  refine ⟨by simp [parallelRcaResults], ?_, ?_, countP_error_sections branches hok, ?_⟩
  · simp [parallelRcaResults]
  · intro i hi1 hi2
    simp [parallelRcaResults]
  · rw [combineRcaLines, foldl_sections]
    have hnames : (parallelRcaResults branches).map Prod.fst = branches.map Prod.fst := by
      simp [parallelRcaResults]
    rw [hnames, List.append_assoc]

/-- One successful and one failing branch, for the C1 witness. -/
def demoBranches : List (String × Except String String) :=
  [("jenkins", Except.ok "no issues found"),
   ("kubernetes", Except.error "connection refused")]

/-- Witness for C1 at a concrete fan-out: two sections in registration order,
exactly one of them the error template. -/
theorem parallel_rca_report_structure_witness :
    (parallelRcaResults demoBranches).map Prod.fst = ["jenkins", "kubernetes"]
    ∧ (parallelRcaResults demoBranches).countP
        (fun p => hasPre "❌ Error during investigation: " p.2) = 1 := by
  have h := parallel_rca_report_structure "the deployment is broken" demoBranches (by decide)
  exact ⟨h.2.1.trans (by decide), h.2.2.2.1.trans (by decide)⟩

/-- Witness for the amended C3 at a concrete query: "jenkins is down" is
classified specific to jenkins, so some jenkins keyword occurs in it. -/
theorem platform_query_substring_characterization_witness :
    ∃ kw ∈ jenkins_keywords, keywordOccurs kw "jenkins is down" :=
  (platform_query_substring_characterization "jenkins is down").1.mp (by decide)

/-- Witness for the amended C7 at a concrete request with the empty
message. -/
theorem empty_message_no_validation_witness :
    (chatEndpoint true (StoreState.mk "sessions" [] []) "" "u2" "s2" "ok" "t1" "t2").1 = 200 :=
  (empty_message_no_validation (StoreState.mk "sessions" [] []) "" "u2" "s2" "ok" "t1" "t2").1
